import Mathlib

/-!
Verification of the reward functions in `DRL4AMM/rewards/RewardFunctions.py`.

The observation space is a fixed-length vector
`(stock_price, cash, inventory, time)` addressed positionally, modelled here
as `Fin 4 → ℝ`.  The `Action` value is opaque to every reward function, so
`calculate` is polymorphic in the action's type.  Python's boolean-to-number
coercion in `InventoryAdjustedPnL.calculate` is rendered explicitly as
`if is_terminal_step then (1 : ℝ) else 0`.
-/

open Filter

/-- Observation vector: index 0 is the stock price, 1 the cash, 2 the
inventory, 3 the elapsed time. -/
abbrev Obs : Type := Fin 4 → ℝ

namespace PnL

/-- Embedding of `PnL.calculate`: mark-to-market value change of the
portfolio between the two observations. -/
def calculate {A : Type} (current_state : Obs) (action : A) (next_state : Obs)
    (is_terminal_step : Bool) : ℝ :=
  let current_market_value := current_state 1 + current_state 0 * current_state 2
  let next_market_value := next_state 1 + next_state 0 * next_state 2
  next_market_value - current_market_value

end PnL

namespace CJ_criterion

/-- Embedding of `CJ_criterion.calculate`: PnL with a running
inventory-change penalty, plus a terminal surcharge on the final step.
`phi` and `terminal_penalty` are per-call parameters in the source. -/
def calculate {A : Type} (current_state : Obs) (action : A) (next_state : Obs)
    (is_terminal_step : Bool) (phi : ℝ) (terminal_penalty : ℝ) : ℝ :=
  let current_market_value := current_state 1 + current_state 0 * current_state 2
  let next_market_value := next_state 1 + next_state 0 * next_state 2
  let dt := next_state 3 - current_state 3
  if is_terminal_step then
    next_market_value - current_market_value
      - dt * phi * (next_state 2 - current_state 2) ^ 2
      - terminal_penalty * (next_state 2 - current_state 2) ^ 2
  else
    next_market_value - current_market_value
      - dt * phi * (next_state 2 - current_state 2) ^ 2

end CJ_criterion

/-- Configuration of `TerminalExponentialUtility`: the constructor stores
`risk_aversion` unvalidated (`self.risk_aversion = risk_aversion`). -/
structure TerminalExponentialUtility where
  risk_aversion : ℝ

namespace TerminalExponentialUtility

/-- Embedding of `TerminalExponentialUtility.calculate`: negative exponential
utility of terminal wealth on the terminal step, zero otherwise. -/
noncomputable def calculate {A : Type} (self : TerminalExponentialUtility)
    (current_state : Obs) (action : A) (next_state : Obs)
    (is_terminal_step : Bool) : ℝ :=
  if is_terminal_step then
    -Real.exp (-self.risk_aversion * (next_state 1 + next_state 0 * next_state 2))
  else 0

end TerminalExponentialUtility

/-- Configuration of `InventoryAdjustedPnL`: the constructor stores all four
numbers unvalidated (plain field assignments in the source). -/
structure InventoryAdjustedPnL where
  per_step_inventory_aversion : ℝ
  terminal_inventory_aversion : ℝ
  inventory_exponent : ℝ
  step_size : ℝ

namespace InventoryAdjustedPnL

/-- Embedding of `InventoryAdjustedPnL.calculate`.  The source blends the two
aversion coefficients by boolean-as-number arithmetic
`is_terminal_step * terminal + (1 - is_terminal_step) * step_size * per_step`;
the boolean coercion is written out as `if _ then (1:ℝ) else 0`.  The inner
PnL call passes no terminal flag, so it uses the default `false`.  The real
exponent on `|inventory|` is Python float `**`, modelled by `Real.rpow`. -/
noncomputable def calculate {A : Type} (self : InventoryAdjustedPnL)
    (current_state : Obs) (action : A) (next_state : Obs)
    (is_terminal_step : Bool) : ℝ :=
  let inventory_aversion :=
    (if is_terminal_step then (1 : ℝ) else 0) * self.terminal_inventory_aversion
      + (1 - (if is_terminal_step then (1 : ℝ) else 0)) * self.step_size
          * self.per_step_inventory_aversion
  PnL.calculate current_state action next_state false
    - inventory_aversion * |next_state 2| ^ self.inventory_exponent

end InventoryAdjustedPnL

/-- An observation whose market value (`cash + price * inventory`) is exactly
`w`: price 0, cash `w`, inventory 0, time 0.  Used to study the reward as a
function of terminal wealth. -/
def obsOfWealth (w : ℝ) : Obs := fun i => if i.val = 1 then w else 0

/-- C1: `PnL.calculate` returns
`(next[1] + next[0]*next[2]) - (current[1] + current[0]*current[2])`;
since the right-hand side mentions neither the action nor the terminal flag,
the result depends on neither. -/
theorem C1_pnl_formula {A : Type} (current : Obs) (action : A) (next : Obs)
    (is_terminal_step : Bool) :
    PnL.calculate current action next is_terminal_step
      = (next 1 + next 0 * next 2) - (current 1 + current 0 * current 2) := rfl

/-- C2: `CJ_criterion.calculate` returns `PnL - dt*phi*d_inv^2` on a
non-terminal step and `PnL - dt*phi*d_inv^2 - terminal_penalty*d_inv^2` on a
terminal step, where `dt = next[3] - current[3]`,
`d_inv = next[2] - current[2]`, and `PnL` is the mark-to-market difference. -/
theorem C2_cj_formula {A : Type} (current : Obs) (action : A) (next : Obs)
    (phi terminal_penalty : ℝ) :
    (CJ_criterion.calculate current action next false phi terminal_penalty
        = PnL.calculate current action next false
          - (next 3 - current 3) * phi * (next 2 - current 2) ^ 2) ∧
    (CJ_criterion.calculate current action next true phi terminal_penalty
        = PnL.calculate current action next false
          - (next 3 - current 3) * phi * (next 2 - current 2) ^ 2
          - terminal_penalty * (next 2 - current 2) ^ 2) := by
  exact ⟨rfl, rfl⟩

/-- C3: `TerminalExponentialUtility.calculate` returns 0 on a non-terminal
step and `-exp(-risk_aversion * (next[1] + next[0]*next[2]))` on a terminal
step, for every current observation and action. -/
theorem C3_teu_formula {A : Type} (teu : TerminalExponentialUtility)
    (current : Obs) (action : A) (next : Obs) :
    teu.calculate current action next false = 0 ∧
    teu.calculate current action next true
      = -Real.exp (-teu.risk_aversion * (next 1 + next 0 * next 2)) :=
  ⟨rfl, rfl⟩

/-- C4: `InventoryAdjustedPnL.calculate` returns
`PnL - inventory_aversion * |next[2]|^inventory_exponent` where
`inventory_aversion` is `terminal_inventory_aversion` on a terminal step and
`step_size * per_step_inventory_aversion` otherwise. -/
theorem C4_iapnl_formula {A : Type} (r : InventoryAdjustedPnL)
    (current : Obs) (action : A) (next : Obs) (is_terminal_step : Bool) :
    r.calculate current action next is_terminal_step
      = PnL.calculate current action next false
        - (if is_terminal_step then r.terminal_inventory_aversion
           else r.step_size * r.per_step_inventory_aversion)
          * |next 2| ^ r.inventory_exponent := by
  cases is_terminal_step <;>
    simp [InventoryAdjustedPnL.calculate]

/-- C5: `PnL.calculate` is zero on identical observations and antisymmetric
under swapping the two observations, for any actions and terminal flags. -/
theorem C5_pnl_antisymm {A B C : Type} (o o1 o2 : Obs) (a : A) (a1 : B)
    (a2 : C) (b b1 b2 : Bool) :
    PnL.calculate o a o b = 0 ∧
    PnL.calculate o1 a1 o2 b1 = -PnL.calculate o2 a2 o1 b2 := by
  constructor <;> simp [PnL.calculate]

/-- C6 (amended): on a terminal step, for non-negative risk aversion the
reward is strictly negative for every finite terminal wealth and monotone
non-decreasing in terminal wealth; when the risk aversion is moreover
strictly positive, the reward tends to 0 as terminal wealth tends to +∞ and
to -∞ as terminal wealth tends to -∞.  (With risk aversion exactly 0 the
reward is constantly -1 and the two limit statements fail; see the
counterexample.) -/
theorem C6_teu_utility_shape (teu : TerminalExponentialUtility)
    (h : 0 ≤ teu.risk_aversion) :
    (∀ (A : Type) (c n : Obs) (a : A), teu.calculate c a n true < 0) ∧
    (∀ (A : Type) (c1 c2 n1 n2 : Obs) (a1 a2 : A),
        n1 1 + n1 0 * n1 2 ≤ n2 1 + n2 0 * n2 2 →
        teu.calculate c1 a1 n1 true ≤ teu.calculate c2 a2 n2 true) ∧
    (0 < teu.risk_aversion →
        Tendsto (fun w => teu.calculate (obsOfWealth 0) () (obsOfWealth w) true)
          atTop (nhds 0) ∧
        Tendsto (fun w => teu.calculate (obsOfWealth 0) () (obsOfWealth w) true)
          atBot atBot) := by
  refine ⟨?_, ?_, ?_⟩
  · intro A c n a
    have e : teu.calculate c a n true
        = -Real.exp (-teu.risk_aversion * (n 1 + n 0 * n 2)) := rfl
    rw [e]
    exact neg_lt_zero.mpr (Real.exp_pos _)
  · intro A c1 c2 n1 n2 a1 a2 hw
    have e1 : teu.calculate c1 a1 n1 true
        = -Real.exp (-teu.risk_aversion * (n1 1 + n1 0 * n1 2)) := rfl
    have e2 : teu.calculate c2 a2 n2 true
        = -Real.exp (-teu.risk_aversion * (n2 1 + n2 0 * n2 2)) := rfl
    rw [e1, e2]
    have hmul : -teu.risk_aversion * (n2 1 + n2 0 * n2 2)
        ≤ -teu.risk_aversion * (n1 1 + n1 0 * n1 2) :=
      mul_le_mul_of_nonpos_left hw (neg_nonpos.mpr h)
    exact neg_le_neg (Real.exp_le_exp.mpr hmul)
  · intro hpos
    have key : (fun w => teu.calculate (obsOfWealth 0) () (obsOfWealth w) true)
        = fun w => -Real.exp (-(teu.risk_aversion * w)) := by
      funext w
      show -Real.exp (-teu.risk_aversion
          * (obsOfWealth w 1 + obsOfWealth w 0 * obsOfWealth w 2))
        = -Real.exp (-(teu.risk_aversion * w))
      norm_num [obsOfWealth, neg_mul]
    constructor
    · rw [key]
      have h1 : Tendsto (fun w : ℝ => teu.risk_aversion * w) atTop atTop :=
        Tendsto.const_mul_atTop hpos tendsto_id
      have h2 : Tendsto (fun w : ℝ => -(teu.risk_aversion * w)) atTop atBot :=
        tendsto_neg_atTop_atBot.comp h1
      have h3 : Tendsto (fun w : ℝ => Real.exp (-(teu.risk_aversion * w)))
          atTop (nhds 0) := Real.tendsto_exp_atBot.comp h2
      have h4 := h3.neg
      rw [neg_zero] at h4
      exact h4
    · rw [key]
      have h1 : Tendsto (fun w : ℝ => teu.risk_aversion * w) atBot atBot :=
        Tendsto.const_mul_atBot hpos tendsto_id
      have h2 : Tendsto (fun w : ℝ => -(teu.risk_aversion * w)) atBot atTop :=
        tendsto_neg_atBot_atTop.comp h1
      have h3 : Tendsto (fun w : ℝ => Real.exp (-(teu.risk_aversion * w)))
          atBot atTop := Real.tendsto_exp_atTop.comp h2
      exact tendsto_neg_atTop_atBot.comp h3

/-- C6 witness: the amended theorem applied at risk aversion 1, extracting
strict negativity at terminal wealth 0. -/
theorem C6_teu_utility_shape_witness :
    (0 : ℝ) ≤ (TerminalExponentialUtility.mk 1).risk_aversion ∧
    (TerminalExponentialUtility.mk 1).calculate (obsOfWealth 0) ()
      (obsOfWealth 0) true < 0 :=
  ⟨by norm_num, (C6_teu_utility_shape (TerminalExponentialUtility.mk 1)
      (by norm_num)).1 Unit (obsOfWealth 0) (obsOfWealth 0) ()⟩

/-- C6 counterexample: with risk aversion 0 (which the claim admits as
non-negative) the terminal reward is constantly -1, so it does not approach
0 as terminal wealth grows without bound. -/
theorem C6_counterexample :
    (0 : ℝ) ≤ (TerminalExponentialUtility.mk 0).risk_aversion ∧
    ¬ Tendsto (fun w => (TerminalExponentialUtility.mk 0).calculate
        (obsOfWealth 0) () (obsOfWealth w) true) atTop (nhds 0) := by
  constructor
  · norm_num
  · have key : (fun w => (TerminalExponentialUtility.mk 0).calculate
        (obsOfWealth 0) () (obsOfWealth w) true) = fun _ => (-1 : ℝ) := by
      funext w
      show -Real.exp (-(0 : ℝ)
          * (obsOfWealth w 1 + obsOfWealth w 0 * obsOfWealth w 2)) = -1
      norm_num
    rw [key]
    intro hcontra
    have h01 := tendsto_nhds_unique hcontra tendsto_const_nhds
    norm_num at h01

/-- C7: an `InventoryAdjustedPnL` with both aversion coefficients zero
computes exactly `PnL.calculate`, for every exponent, step size, observation
pair, action and terminal flag. -/
theorem C7_iapnl_reduces_to_pnl {A : Type} (inventory_exponent step_size : ℝ)
    (current : Obs) (action : A) (next : Obs) (is_terminal_step : Bool) :
    (InventoryAdjustedPnL.mk 0 0 inventory_exponent step_size).calculate
        current action next is_terminal_step
      = PnL.calculate current action next is_terminal_step := by
  cases is_terminal_step <;>
    simp [InventoryAdjustedPnL.calculate, PnL.calculate]

/-- C8: construction performs no validation.  The pydantic
`NonNegativeFloat` / `PositiveFloat` annotations in the source are inert on a
plain class `__init__`, so a negative risk aversion, negative aversion
coefficients and a non-positive exponent are stored verbatim: construction
succeeds with no error and no clamping, contrary to the claim. -/
theorem C8_construction_not_validated :
    (TerminalExponentialUtility.mk (-1)).risk_aversion = -1 ∧
    (InventoryAdjustedPnL.mk (-1) (-2) 0 (1 / 200)).per_step_inventory_aversion = -1 ∧
    (InventoryAdjustedPnL.mk (-1) (-2) 0 (1 / 200)).terminal_inventory_aversion = -2 ∧
    (InventoryAdjustedPnL.mk (-1) (-2) 0 (1 / 200)).inventory_exponent = 0 :=
  ⟨rfl, rfl, rfl, rfl⟩

/-- C9: none of the four reward implementations reads the action argument:
replacing the action by any other value (even of a different type) leaves
every result unchanged. -/
theorem C9_action_ignored {A B : Type} (teu : TerminalExponentialUtility)
    (r : InventoryAdjustedPnL) (current next : Obs) (a1 : A) (a2 : B)
    (is_terminal_step : Bool) (phi terminal_penalty : ℝ) :
    PnL.calculate current a1 next is_terminal_step
      = PnL.calculate current a2 next is_terminal_step ∧
    CJ_criterion.calculate current a1 next is_terminal_step phi terminal_penalty
      = CJ_criterion.calculate current a2 next is_terminal_step phi terminal_penalty ∧
    teu.calculate current a1 next is_terminal_step
      = teu.calculate current a2 next is_terminal_step ∧
    r.calculate current a1 next is_terminal_step
      = r.calculate current a2 next is_terminal_step :=
  ⟨rfl, rfl, rfl, rfl⟩

/-- C10: `TerminalExponentialUtility.calculate` never reads the current
observation: the result is the same for any two current observations, hence
determined by the next observation, the flag, and `risk_aversion` alone. -/
theorem C10_teu_ignores_current {A : Type} (teu : TerminalExponentialUtility)
    (c1 c2 next : Obs) (action : A) (is_terminal_step : Bool) :
    teu.calculate c1 action next is_terminal_step
      = teu.calculate c2 action next is_terminal_step := rfl
